import Mathlib

/-!
Verification of the aronnax input/output core (`aronnax/core.py`) against its
specification.  The Python source is shallowly embedded: 64-bit floats are
modelled as rationals (`ℚ`) — every operation the claims exercise is exact in
float64 as well as in `ℚ` (copies, reshapes, multiplications by 1, midpoints of
linspace values are the only arithmetic involved) — numpy arrays are nested
lists, and fallible operations return `Option` (with `none` for a raised
Python exception such as `AssertionError`, `TypeError`, `ValueError`,
`KeyError`, or a numpy shape error).
-/

namespace Aronnax

/-- Model of `np.linspace(a, b, num)`: `num` evenly spaced points from `a` to
`b` inclusive, point `i` being `a + i * (b - a) / (num - 1)`.  For `num = 1`
the division is by zero, which in `ℚ` yields `0`, so the single point is `a`,
matching numpy.  (numpy pins the final point to `b` exactly; over `ℚ` the
formula already gives `b` exactly, so no special case is needed.) -/
def linspace (a b : ℚ) (num : ℕ) : List ℚ :=
  (List.range num).map (fun (i : ℕ) => a + (i : ℚ) * ((b - a) / ((num : ℚ) - 1)))

/-- Embedding of the `Grid` object of `aronnax/core.py`: the constructor
parameters together with the derived axis arrays stored by `Grid.__init__`. -/
structure Grid where
  nx : ℕ
  ny : ℕ
  layers : ℕ
  dx : ℚ
  dy : ℚ
  x0 : ℚ
  y0 : ℚ
  xp1 : List ℚ
  yp1 : List ℚ
  x : List ℚ
  y : List ℚ
deriving Repr, DecidableEq

/-- Embedding of `Grid.__init__(nx, ny, layers, dx, dy, x0=0, y0=0)`:
`xp1 = np.linspace(x0, nx*dx+x0, nx+1)` (likewise `yp1`), and
`x = (xp1[1:] + xp1[:-1])/2` (likewise `y`).  The elementwise numpy sum of the
shifted slices is a `zipWith`; `xp1[1:]` is `tail` and `xp1[:-1]` is
`dropLast`.  The Python constructor contains no validation and no operation
that can raise, so the embedding is a total function. -/
def mkGrid (nx ny layers : ℕ) (dx dy : ℚ) (x0 y0 : ℚ) : Grid :=
  let xp1 := linspace x0 ((nx : ℚ) * dx + x0) (nx + 1)
  let yp1 := linspace y0 ((ny : ℚ) * dy + y0) (ny + 1)
  { nx := nx, ny := ny, layers := layers, dx := dx, dy := dy, x0 := x0, y0 := y0,
    xp1 := xp1, yp1 := yp1,
    x := List.zipWith (fun a b => (a + b) / 2) xp1.tail xp1.dropLast,
    y := List.zipWith (fun a b => (a + b) / 2) yp1.tail yp1.dropLast }

theorem linspace_length (a b : ℚ) (num : ℕ) : (linspace a b num).length = num := by
  unfold linspace
  rw [List.length_map, List.length_range]

theorem mkGrid_axis_lengths (nx ny layers : ℕ) (dx dy x0 y0 : ℚ) :
    (mkGrid nx ny layers dx dy x0 y0).xp1.length = nx + 1 ∧
    (mkGrid nx ny layers dx dy x0 y0).yp1.length = ny + 1 ∧
    (mkGrid nx ny layers dx dy x0 y0).x.length = nx ∧
    (mkGrid nx ny layers dx dy x0 y0).y.length = ny := by
  simp [mkGrid, linspace_length, List.length_zipWith, List.length_tail,
    List.length_dropLast]

theorem midpoint_of_zipWith (l : List ℚ) (i : ℕ)
    (hz : i < (List.zipWith (fun a b => (a + b) / 2) l.tail l.dropLast).length)
    (h1 : i < l.length) (h2 : i + 1 < l.length) :
    (List.zipWith (fun a b => (a + b) / 2) l.tail l.dropLast).get ⟨i, hz⟩ =
      (l.get ⟨i, h1⟩ + l.get ⟨i + 1, h2⟩) / 2 := by
  simp only [List.get_eq_getElem, List.getElem_zipWith, List.getElem_tail,
    List.getElem_dropLast]
  ring

/-- C1: for every grid constructed from positive `nx`, `ny`, `layers` and
positive `dx`, `dy`, the tracer axis `grid.x` has length `nx` and the vertex
axis `grid.xp1` has length `nx+1`, and `grid.x[i] = (grid.xp1[i] +
grid.xp1[i+1]) / 2` for every `0 ≤ i < nx`; analogously for `y`. -/
theorem grid_axes_spec (nxv nyv lv : ℕ) (dxv dyv x0v y0v : ℚ)
    (_hnx : 1 ≤ nxv) (_hny : 1 ≤ nyv) (_hl : 1 ≤ lv) (_hdx : 0 < dxv) (_hdy : 0 < dyv)
    (g : Grid) (hg : g = mkGrid nxv nyv lv dxv dyv x0v y0v) :
    g.x.length = nxv ∧ g.xp1.length = nxv + 1 ∧
    g.y.length = nyv ∧ g.yp1.length = nyv + 1 ∧
    (∀ (i : ℕ) (hi : i < g.x.length) (hi1 : i < g.xp1.length)
       (hi2 : i + 1 < g.xp1.length),
      g.x.get ⟨i, hi⟩ = (g.xp1.get ⟨i, hi1⟩ + g.xp1.get ⟨i + 1, hi2⟩) / 2) ∧
    (∀ (j : ℕ) (hj : j < g.y.length) (hj1 : j < g.yp1.length)
       (hj2 : j + 1 < g.yp1.length),
      g.y.get ⟨j, hj⟩ = (g.yp1.get ⟨j, hj1⟩ + g.yp1.get ⟨j + 1, hj2⟩) / 2) := by
  subst hg
  obtain ⟨e1, e2, e3, e4⟩ := mkGrid_axis_lengths nxv nyv lv dxv dyv x0v y0v
  refine ⟨e3, e1, e4, e2, ?_, ?_⟩
  · intro i hi hi1 hi2
    exact midpoint_of_zipWith (mkGrid nxv nyv lv dxv dyv x0v y0v).xp1 i hi hi1 hi2
  · intro j hj hj1 hj2
    exact midpoint_of_zipWith (mkGrid nxv nyv lv dxv dyv x0v y0v).yp1 j hj hj1 hj2

/-- Witness for `grid_axes_spec` at the concrete grid
`mkGrid 2 3 1 1 1 0 0`: the first tracer point is the midpoint of the first
two vertex points. -/
theorem grid_axes_spec_witness :
    (mkGrid 2 3 1 1 1 0 0).x.get ⟨0, by decide⟩ =
      ((mkGrid 2 3 1 1 1 0 0).xp1.get ⟨0, by decide⟩ +
       (mkGrid 2 3 1 1 1 0 0).xp1.get ⟨1, by decide⟩) / 2 :=
  (grid_axes_spec 2 3 1 1 1 0 0 (by norm_num) (by norm_num) (by norm_num)
    (by norm_num) (by norm_num) _ rfl).2.2.2.2.1 0 (by decide) (by decide) (by decide)

/-- C4 counterexample: the claim says `make_grid` fails with `InvalidParameter`
whenever `nx < 1`, `ny < 1`, `layers < 1`, `dx ≤ 0` or `dy ≤ 0`.  The source
`Grid.__init__` contains no validation and no statement that can raise on
these inputs, so the embedding is total: at the invalid input
`nx = ny = layers = 0`, `dx = dy = -1` construction succeeds and returns an
ordinary `Grid` value (computed here in full), refuting the claim. -/
theorem mkGrid_no_validation_counterexample :
    mkGrid 0 0 0 (-1) (-1) 0 0 =
      { nx := 0, ny := 0, layers := 0, dx := -1, dy := -1, x0 := 0, y0 := 0,
        xp1 := [0], yp1 := [0], x := [], y := [] } := by
  simp only [mkGrid, linspace]
  norm_num

/-- C4 amended: `Grid.__init__` performs no parameter validation: for every
`nx, ny, layers ≥ 0` and all rational `dx, dy, x0, y0` (including zero and
negative spacings) construction succeeds with no side effects, stores the
parameters unchanged, and still produces axes of lengths `nx+1`, `ny+1`,
`nx`, `ny`. -/
theorem mkGrid_total_no_validation (nxv nyv lv : ℕ) (dxv dyv x0v y0v : ℚ) :
    (mkGrid nxv nyv lv dxv dyv x0v y0v).nx = nxv ∧
    (mkGrid nxv nyv lv dxv dyv x0v y0v).ny = nyv ∧
    (mkGrid nxv nyv lv dxv dyv x0v y0v).layers = lv ∧
    (mkGrid nxv nyv lv dxv dyv x0v y0v).dx = dxv ∧
    (mkGrid nxv nyv lv dxv dyv x0v y0v).dy = dyv ∧
    (mkGrid nxv nyv lv dxv dyv x0v y0v).x0 = x0v ∧
    (mkGrid nxv nyv lv dxv dyv x0v y0v).y0 = y0v ∧
    (mkGrid nxv nyv lv dxv dyv x0v y0v).xp1.length = nxv + 1 ∧
    (mkGrid nxv nyv lv dxv dyv x0v y0v).yp1.length = nyv + 1 ∧
    (mkGrid nxv nyv lv dxv dyv x0v y0v).x.length = nxv ∧
    (mkGrid nxv nyv lv dxv dyv x0v y0v).y.length = nyv := by
  obtain ⟨e1, e2, e3, e4⟩ := mkGrid_axis_lengths nxv nyv lv dxv dyv x0v y0v
  exact ⟨rfl, rfl, rfl, rfl, rfl, rfl, rfl, e1, e2, e3, e4⟩

/-- Model of Python `str.startswith`: `startsWith s p` is true when `p` is a
prefix of `s`. -/
def startsWith : List Char → List Char → Bool
  | _, [] => true
  | [], _ :: _ => false
  | c :: cs, d :: ds => c == d && startsWith cs ds

/-- Model of `os.path.basename`: the part of the path after the last `/`. -/
def basename (s : List Char) : List Char :=
  s.foldl (fun acc c => if c = '/' then [] else acc ++ [c]) []

/-- Embedding of the shape-inference part of `interpret_raw_file`
(`aronnax/core.py` lines 79–123): starting from `dx = 0`, `dy = 0` and the
configured `layers`, a fixed sequence of `if file_part.startswith(...)` tests
updates the three values in source order (the `snap.BP`, `snap.h`, `av.h` and
`debug.dhdt` branches are `pass` in the source and change nothing).  The
result is the stored shape `(layers, ny + dy, nx + dx)` used for the
reshape. -/
def rawShape (file_part : List Char) (nx ny layers : ℕ) : ℕ × ℕ × ℕ :=
  let dx : ℕ := 0
  let dy : ℕ := 0
  -- if file_part.startswith("snap.BP"): pass
  let layers := if startsWith file_part ("snap.eta".toList) then 1 else layers
  let layers := if startsWith file_part ("snap.eta_new".toList) then 1 else layers
  let layers := if startsWith file_part ("snap.eta_star".toList) then 1 else layers
  -- if file_part.startswith("snap.h"): pass
  let dx := if startsWith file_part ("snap.u".toList) then 1 else dx
  let dx := if startsWith file_part ("snap.ub".toList) then 1 else dx
  let layers := if startsWith file_part ("snap.ub".toList) then 1 else layers
  let dy := if startsWith file_part ("snap.v".toList) then 1 else dy
  let dy := if startsWith file_part ("snap.vb".toList) then 1 else dy
  let layers := if startsWith file_part ("snap.vb".toList) then 1 else layers
  let dx := if startsWith file_part ("snap.zeta".toList) then 1 else dx
  let dy := if startsWith file_part ("snap.zeta".toList) then 1 else dy
  let dx := if startsWith file_part ("wind_x".toList) then 1 else dx
  let layers := if startsWith file_part ("wind_x".toList) then 1 else layers
  let dy := if startsWith file_part ("wind_y".toList) then 1 else dy
  let layers := if startsWith file_part ("wind_y".toList) then 1 else layers
  -- if file_part.startswith("av.h"): pass
  let dx := if startsWith file_part ("av.u".toList) then 1 else dx
  let dy := if startsWith file_part ("av.v".toList) then 1 else dy
  let layers := if startsWith file_part ("av.eta".toList) then 1 else layers
  -- if file_part.startswith("debug.dhdt"): pass
  let dx := if startsWith file_part ("debug.dudt".toList) then 1 else dx
  let dy := if startsWith file_part ("debug.dvdt".toList) then 1 else dy
  (layers, ny + dy, nx + dx)

/-- Embedding of `interpret_raw_file(name, nx, ny, layers)`.  The file's one
Fortran record is the argument `fileData` (the result of `read_reals`, a flat
vector of float64 values).  `reshape(layers, ny+dy, nx+dx)` in C order places
stored element `(k, j, i)` at flat index `k*(r*c) + j*c + i` and raises
`ValueError` (here `none`) when the element count does not match;
`.transpose()` then reverses the axis order, so the returned array has shape
`(nx+dx, ny+dy, layers)` with `result[i][j][k] = stored[k][j][i]`. -/
def interpret_raw_file (name : List Char) (nx ny layers : ℕ) (fileData : List ℚ) :
    Option (List (List (List ℚ))) :=
  let s := rawShape (basename name) nx ny layers
  let l := s.1
  let r := s.2.1
  let c := s.2.2
  if fileData.length = l * r * c then
    some ((List.range c).map (fun i => (List.range r).map (fun j =>
      (List.range l).map (fun k => fileData.getD (k * (r * c) + j * c + i) 0))))
  else none

/-- Modelled from the spec: the Binary Record Codec write path is not part of
`src/` (only the read path `interpret_raw_file` is).  Per the spec it is
"given a target array already shaped with the external solver's expected axis
order (layers outermost if present, then the two spatial axes in
decreasing-stride order)" and it "serialize[s it] as a single record of 64-bit
floats to a file": i.e. it flattens the solver-order array in C order into the
record, with no conversion of the float64 values. -/
def writeRecord (a : List (List (List ℚ))) : List ℚ :=
  a.flatten.flatten

/-- C3: with `nx = 10`, `ny = 8`, a basename starting with `snap.u` infers
stored shape `(layers, 8, 11)` (`dx = 1`, `dy = 0`) for any configured
`layers`, while a basename starting with `snap.ub` infers `(1, 8, 11)` —
`layers` forced to 1 even when the configured count is larger — because the
longer prefix `snap.ub` is tested after the shorter `snap.u` and overrides
the layer flag. -/
theorem rawShape_snap_u_vs_ub (layers : ℕ) :
    rawShape (basename ("snap.u.000000100.bin".toList)) 10 8 layers =
      (layers, 8, 11) ∧
    rawShape (basename ("snap.ub.000000100.bin".toList)) 10 8 layers =
      (1, 8, 11) := by
  constructor <;> rfl

theorem map_range_getD {α : Type _} (f : ℕ → α) (n i : ℕ) (d : α) (hi : i < n) :
    ((List.range n).map f).getD i d = f i := by
  rw [List.getD_eq_getElem?_getD, List.getElem?_map, List.getElem?_range hi]
  rfl

theorem flatten_length_const {α : Type _} (ls : List (List α)) (c : ℕ)
    (h : ∀ l ∈ ls, l.length = c) : ls.flatten.length = ls.length * c := by
  induction ls with
  | nil => simp
  | cons hd tl ih =>
    have hhd : hd.length = c := h hd (by simp)
    have htl : ∀ l ∈ tl, l.length = c := fun l hl => h l (by simp [hl])
    simp [List.flatten_cons, hhd, ih htl, Nat.succ_mul, Nat.add_comm]

theorem flatten_getD {α : Type _} (d : α) (ls : List (List α)) (c : ℕ)
    (hc : ∀ l ∈ ls, l.length = c) (j i : ℕ) (hj : j < ls.length) (hi : i < c) :
    ls.flatten.getD (j * c + i) d = (ls.getD j []).getD i d := by
  induction ls generalizing j with
  | nil => simp at hj
  | cons hd tl ih =>
    have hhd : hd.length = c := hc hd (by simp)
    have htl : ∀ l ∈ tl, l.length = c := fun l hl => hc l (by simp [hl])
    cases j with
    | zero =>
      simp only [Nat.zero_mul, Nat.zero_add, List.flatten_cons, List.getD_cons_zero]
      rw [List.getD_eq_getElem?_getD, List.getElem?_append_left (by omega),
        ← List.getD_eq_getElem?_getD]
    | succ j =>
      have harith : (j + 1) * c + i = hd.length + (j * c + i) := by
        rw [hhd]; ring
      simp only [List.flatten_cons, List.getD_cons_succ]
      rw [harith, List.getD_eq_getElem?_getD, List.getElem?_append_right (by omega),
        Nat.add_sub_cancel_left, ← List.getD_eq_getElem?_getD]
      exact ih htl j (by simp only [List.length_cons] at hj; omega)

theorem writeRecord_getD (A : List (List (List ℚ))) (l r c : ℕ)
    (hl : A.length = l)
    (hr : ∀ p ∈ A, p.length = r)
    (hc : ∀ p ∈ A, ∀ row ∈ p, row.length = c)
    (k j i : ℕ) (hk : k < l) (hj : j < r) (hi : i < c) :
    (writeRecord A).getD (k * (r * c) + j * c + i) 0 =
      ((A.getD k []).getD j []).getD i 0 := by
  have hkA : k < A.length := by omega
  have hflat_rows : ∀ row ∈ A.flatten, row.length = c := by
    intro row hrow
    obtain ⟨p, hp, hrp⟩ := List.mem_flatten.mp hrow
    exact hc p hp row hrp
  have hflat_len : A.flatten.length = l * r := by
    rw [flatten_length_const A r hr, hl]
  have hjk : k * r + j < A.flatten.length := by
    rw [hflat_len]
    have h1 : k * r + j < (k + 1) * r := by
      have : (k + 1) * r = k * r + r := by ring
      omega
    have h2 : (k + 1) * r ≤ l * r := Nat.mul_le_mul_right r hk
    omega
  have harith : k * (r * c) + j * c + i = (k * r + j) * c + i := by ring
  rw [writeRecord, harith,
    flatten_getD (0 : ℚ) A.flatten c hflat_rows (k * r + j) i hjk hi,
    flatten_getD ([] : List ℚ) A r hr k j hkA hj]

/-- Transposition of a 3-dimensional array of shape `(l, r, c)` (the model of
numpy `.transpose()` on such an array): the result has shape `(c, r, l)` and
entry `[i][j][k]` equal to the input's entry `[k][j][i]`. -/
def transpose3 (l r c : ℕ) (A : List (List (List ℚ))) : List (List (List ℚ)) :=
  (List.range c).map (fun i => (List.range r).map (fun j =>
    (List.range l).map (fun k => ((A.getD k []).getD j []).getD i 0)))

/-- C2 counterexample: the array `A = [[[0, 1]], [[0, 0]]]` of stored shape
`(layers, ny+dy, nx+dx) = (2, 1, 2)` is serialized by the modelled write path
and read back through `interpret_raw_file` under the matching name
`snap.u.0000000001.bin` with `nx = 1`, `ny = 1`, `layers = 2`; the result is
`[[[0, 0]], [[1, 0]]]` — the axis reversal of `A`, not `A` itself — so the
round trip does not return the original array. -/
theorem roundtrip_not_identity_counterexample :
    interpret_raw_file ("snap.u.0000000001.bin".toList) 1 1 2
        (writeRecord [[[0, 1]], [[0, 0]]]) =
      some [[[(0 : ℚ), 0]], [[1, 0]]] ∧
    some [[[(0 : ℚ), 0]], [[1, 0]]] ≠ some [[[(0 : ℚ), 1]], [[0, 0]]] := by
  constructor
  · rfl
  · decide

/-- C2 amended: serializing an array of the stored shape `(l, r, c)` implied
by the file name and reading it back with `interpret_raw_file` succeeds and
reproduces the original array with the axis order reversed: the result is
`transpose3 l r c A`, whose entry `[i][j][k]` is bit-identical to the
original's entry `[k][j][i]` for all in-range indices (no value is altered;
only the axis convention changes, as `interpret_raw_file` ends with
`.transpose()`). -/
theorem roundtrip_is_axis_reversal (A : List (List (List ℚ)))
    (l r c nx ny layers : ℕ) (name : List Char)
    (hshape : rawShape (basename name) nx ny layers = (l, r, c))
    (hl : A.length = l) (hr : ∀ p ∈ A, p.length = r)
    (hc : ∀ p ∈ A, ∀ row ∈ p, row.length = c) :
    interpret_raw_file name nx ny layers (writeRecord A) =
      some (transpose3 l r c A) ∧
    ∀ i j k, i < c → j < r → k < l →
      (((transpose3 l r c A).getD i []).getD j []).getD k 0 =
        ((A.getD k []).getD j []).getD i 0 := by
  constructor
  · have hflat_rows : ∀ row ∈ A.flatten, row.length = c := by
      intro row hrow
      obtain ⟨p, hp, hrp⟩ := List.mem_flatten.mp hrow
      exact hc p hp row hrp
    have hlen : (writeRecord A).length = l * r * c := by
      rw [writeRecord, flatten_length_const A.flatten c hflat_rows,
        flatten_length_const A r hr, hl]
    rw [interpret_raw_file, hshape]
    simp only [hlen, if_pos rfl]
    refine congrArg some (List.map_congr_left ?_)
    intro i hi
    refine List.map_congr_left ?_
    intro j hj
    refine List.map_congr_left ?_
    intro k hk
    exact writeRecord_getD A l r c hl hr hc k j i (List.mem_range.mp hk)
      (List.mem_range.mp hj) (List.mem_range.mp hi)
  · intro i j k hi hj hk
    rw [transpose3, map_range_getD _ c i [] hi, map_range_getD _ r j [] hj,
      map_range_getD _ l k 0 hk]

/-- Witness for `roundtrip_is_axis_reversal` at the concrete array
`[[[0, 1]], [[0, 0]]]` under the name `out.bin` (no naming-convention prefix
matches, so the stored shape is the configured `(2, 1, 2)`). -/
theorem roundtrip_is_axis_reversal_witness :
    interpret_raw_file ("out.bin".toList) 2 1 2
        (writeRecord [[[0, 1]], [[0, 0]]]) =
      some (transpose3 2 1 2 [[[0, 1]], [[0, 0]]]) :=
  (roundtrip_is_axis_reversal [[[0, 1]], [[0, 0]]] 2 1 2 2 1 2
    ("out.bin".toList) rfl rfl (by decide)
    (by intro p hp row hrow; fin_cases hp <;> simp_all)).1

/-- Embedding of `find_field_layers(shape, grid)` (`aronnax/core.py` lines
308–322): a chain of `if shape == ...: return ...` tests.  A tag outside the
six listed ones matches no test, so control falls off the end of the Python
function and it returns `None` — modelled as `none`.  The function contains no
`raise`, so it cannot fail. -/
def find_field_layers (shape : String) (grid : Grid) : Option ℕ :=
  if shape = "2dT" then some 1
  else if shape = "3dT" then some grid.layers
  else if shape = "2dU" then some 1
  else if shape = "3dU" then some grid.layers
  else if shape = "2dV" then some 1
  else if shape = "3dV" then some grid.layers
  else none

/-- Shared concrete grid used by the concrete witnesses below. -/
def testGrid : Grid := mkGrid 4 3 2 1 1 0 0

/-- C5 counterexample: the claim says `find_field_layers` fails with
`UnknownShapeTag` for a tag outside the enumerated set.  The source has no
`raise` statement: an unknown tag matches none of the `if` tests and the
function falls off its end, returning the ordinary value `None` (here `none`)
— it does not fail.  Shown here at the concrete unknown tag `"2dQ"`. -/
theorem find_field_layers_unknown_counterexample :
    find_field_layers "2dQ" testGrid = none := rfl

/-- C5 amended: `find_field_layers` returns 1 for each 2-D tag and
`grid.layers` for each 3-D tag, and for any tag outside the enumerated set
(including `"time"`) it returns `None` (modelled `none`) rather than raising
an error. -/
theorem find_field_layers_amended (g : Grid) :
    find_field_layers "2dT" g = some 1 ∧
    find_field_layers "3dT" g = some g.layers ∧
    find_field_layers "2dU" g = some 1 ∧
    find_field_layers "3dU" g = some g.layers ∧
    find_field_layers "2dV" g = some 1 ∧
    find_field_layers "3dV" g = some g.layers ∧
    ∀ tag : String,
      tag ∉ (["2dT", "3dT", "2dU", "3dU", "2dV", "3dV"] : List String) →
      find_field_layers tag g = none := by
  refine ⟨rfl, rfl, rfl, rfl, rfl, rfl, ?_⟩
  intro tag htag
  simp only [List.mem_cons, List.not_mem_nil, or_false] at htag
  push_neg at htag
  obtain ⟨h1, h2, h3, h4, h5, h6⟩ := htag
  simp [find_field_layers, h1, h2, h3, h4, h5, h6]

/-- Witness for `find_field_layers_amended` at the unknown tag `"bogus"` and
the 2-D and 3-D tags over `testGrid` (whose layer count is 2). -/
theorem find_field_layers_amended_witness :
    find_field_layers "bogus" testGrid = none :=
  (find_field_layers_amended testGrid).2.2.2.2.2.2 "bogus" (by decide)

/-- Per-layer value supplied to a field generator: either a numeric constant
(the Python `isinstance(f, (int, long, float))` branch) or a callable of the
two coordinate meshgrids, modelled pointwise — numpy evaluates an analytic
expression in `X` and `Y` elementwise on the meshgrid, with
`X[j][k] = xs[k]` and `Y[j][k] = ys[j]` for `X, Y = np.meshgrid(xs, ys)`. -/
inductive LayerVal where
  | const (q : ℚ)
  | fn (f : ℚ → ℚ → ℚ)

/-- Embedding of `tracer_point_variable(grid, field_layers, *funcs)`:
allocates `ones((field_layers, ny, nx))`, asserts
`field_layers == len(funcs)` (an `AssertionError` — here `none` — when the
counts differ), then overwrites layer `i` with the constant or with
`f(X, Y)` over the tracer meshgrid `X, Y = np.meshgrid(grid.x, grid.y)`. -/
def tracer_point_variable (grid : Grid) (field_layers : ℕ)
    (funcs : List LayerVal) : Option (List (List (List ℚ))) :=
  if field_layers = funcs.length then
    some (funcs.map (fun f => (List.range grid.ny).map (fun j =>
      (List.range grid.nx).map (fun k =>
        match f with
        | .const q => q
        | .fn f => f (grid.x.getD k 0) (grid.y.getD j 0)))))
  else none

/-- Embedding of `u_point_variable(grid, field_layers, *funcs)`: array of
shape `(field_layers, ny, nx+1)` over the meshgrid of `(grid.xp1, grid.y)`,
with the same length assertion. -/
def u_point_variable (grid : Grid) (field_layers : ℕ)
    (funcs : List LayerVal) : Option (List (List (List ℚ))) :=
  if field_layers = funcs.length then
    some (funcs.map (fun f => (List.range grid.ny).map (fun j =>
      (List.range (grid.nx + 1)).map (fun k =>
        match f with
        | .const q => q
        | .fn f => f (grid.xp1.getD k 0) (grid.y.getD j 0)))))
  else none

/-- Embedding of `v_point_variable(grid, field_layers, *funcs)`: array of
shape `(field_layers, ny+1, nx)` over the meshgrid of `(grid.x, grid.yp1)`,
with the same length assertion. -/
def v_point_variable (grid : Grid) (field_layers : ℕ)
    (funcs : List LayerVal) : Option (List (List (List ℚ))) :=
  if field_layers = funcs.length then
    some (funcs.map (fun f => (List.range (grid.ny + 1)).map (fun j =>
      (List.range grid.nx).map (fun k =>
        match f with
        | .const q => q
        | .fn f => f (grid.x.getD k 0) (grid.yp1.getD j 0)))))
  else none

/-- Value passed as the `func` argument of `time_series_variable`; the
callable variant receives `(nTimeSteps, dt)` and returns the whole series. -/
inductive TSVal where
  | const (q : ℚ)
  | fn (f : ℕ → ℚ → List ℚ)

/-- Python value supplied to the time-series generator: a bare number, a bare
callable, or a sequence of `TSVal`s.  Only the sequence form survives the
`len(func)` call in the source — `len` of a number or of a function raises
`TypeError` (here `none`). -/
inductive TSInput where
  | num (q : ℚ)
  | fn (f : ℕ → ℚ → List ℚ)
  | seq (l : List TSVal)

/-- Embedding of `time_series_variable(nTimeSteps, dt, func)`: allocates
`zeros(nTimeSteps)`, asserts `len(func) == 1` (so a bare number or callable
fails with `TypeError` at `len`, and a sequence of any length other than 1
fails the assertion), then fills the array: a constant element gives
`np.ones(nTimeSteps) * f`, a callable element gives `f(nTimeSteps, dt)`
(whose result must have length `nTimeSteps` for the slice assignment
`ts_variable[:] = ...` to succeed). -/
def time_series_variable (nTimeSteps : ℕ) (dt : ℚ) (func : TSInput) :
    Option (List ℚ) :=
  match func with
  | .num _ => none
  | .fn _ => none
  | .seq l =>
    if l.length = 1 then
      match l with
      | [] => none
      | f :: _ =>
        match f with
        | .const q => some (List.replicate nTimeSteps (1 * q))
        | .fn f =>
          if (f nTimeSteps dt).length = nTimeSteps then some (f nTimeSteps dt)
          else none
    else none

/-- Embedding of `f_plane_f_u(grid, field_layers, coeff)`: asserts
`field_layers == 1`, then returns `np.ones((nx+1, ny)) * coeff` — an
`(nx+1, ny)` array with every entry `1 * coeff`. -/
def f_plane_f_u (grid : Grid) (field_layers : ℕ) (coeff : ℚ) :
    Option (List (List ℚ)) :=
  if field_layers = 1 then
    some (List.replicate (grid.nx + 1) (List.replicate grid.ny (1 * coeff)))
  else none

/-- Embedding of `f_plane_f_v(grid, field_layers, coeff)`: asserts
`field_layers == 1`, then returns `np.ones((nx, ny+1)) * coeff`. -/
def f_plane_f_v (grid : Grid) (field_layers : ℕ) (coeff : ℚ) :
    Option (List (List ℚ)) :=
  if field_layers = 1 then
    some (List.replicate grid.nx (List.replicate (grid.ny + 1) (1 * coeff)))
  else none

/-- Embedding of `beta_plane_f_u(grid, field_layers, f0, beta)`: asserts
`field_layers == 1`; `_, Y = np.meshgrid(grid.xp1, grid.y)` has shape
`(ny, nx+1)` with `Y[j][k] = grid.y[j]`, and the result is `f0 + Y*beta`. -/
def beta_plane_f_u (grid : Grid) (field_layers : ℕ) (f0 beta : ℚ) :
    Option (List (List ℚ)) :=
  if field_layers = 1 then
    some ((List.range grid.ny).map (fun j => (List.range (grid.nx + 1)).map
      (fun _ => f0 + grid.y.getD j 0 * beta)))
  else none

/-- Embedding of `beta_plane_f_v(grid, field_layers, f0, beta)`: asserts
`field_layers == 1`; `_, Y = np.meshgrid(grid.x, grid.yp1)` has shape
`(ny+1, nx)` with `Y[j][k] = grid.yp1[j]`, and the result is `f0 + Y*beta`. -/
def beta_plane_f_v (grid : Grid) (field_layers : ℕ) (f0 beta : ℚ) :
    Option (List (List ℚ)) :=
  if field_layers = 1 then
    some ((List.range (grid.ny + 1)).map (fun j => (List.range grid.nx).map
      (fun _ => f0 + grid.yp1.getD j 0 * beta)))
  else none

/-- Embedding of `rectangular_pool(grid, field_layers)`: asserts
`field_layers == 1`, allocates `ones((nx, ny))` and zeroes the first row
(`wetmask[0,:] = 0`), the last row (`wetmask[-1,:] = 0`, Python index `-1`
being `nx-1`), the first column and the last column, in that order.  (For
`nx = 0` or `ny = 0` the Python `-1` index would raise `IndexError`; the
claims only concern positive extents, where `List.set` matches the Python
assignment exactly.) -/
def rectangular_pool (grid : Grid) (field_layers : ℕ) :
    Option (List (List ℚ)) :=
  if field_layers = 1 then
    let w := List.replicate grid.nx (List.replicate grid.ny (1 : ℚ))
    let w := w.set 0 (List.replicate grid.ny 0)
    let w := w.set (grid.nx - 1) (List.replicate grid.ny 0)
    let w := w.map (fun row => row.set 0 0)
    let w := w.map (fun row => row.set (grid.ny - 1) 0)
    some w
  else none

/-- C6: every registered generator rejects a wrong per-layer value count.
The three point-variable generators assert `field_layers == len(funcs)`; the
time-series generator's required count is fixed at 1 (`assert len(func) ==
1`); the two f-plane, two beta-plane and the rectangular-pool generators take
exactly one set of per-layer data and assert `field_layers == 1`, so any
`field_layers ≠ 1` fails.  Each failing assertion is an `AssertionError`,
modelled as `none`. -/
theorem generators_reject_wrong_count :
    (∀ g fl funcs, List.length funcs ≠ fl →
      tracer_point_variable g fl funcs = none) ∧
    (∀ g fl funcs, List.length funcs ≠ fl →
      u_point_variable g fl funcs = none) ∧
    (∀ g fl funcs, List.length funcs ≠ fl →
      v_point_variable g fl funcs = none) ∧
    (∀ n dt funcs, List.length funcs ≠ 1 →
      time_series_variable n dt (.seq funcs) = none) ∧
    (∀ g fl coeff, fl ≠ 1 → f_plane_f_u g fl coeff = none) ∧
    (∀ g fl coeff, fl ≠ 1 → f_plane_f_v g fl coeff = none) ∧
    (∀ g fl f0 beta, fl ≠ 1 → beta_plane_f_u g fl f0 beta = none) ∧
    (∀ g fl f0 beta, fl ≠ 1 → beta_plane_f_v g fl f0 beta = none) ∧
    (∀ g fl, fl ≠ 1 → rectangular_pool g fl = none) := by
  refine ⟨?_, ?_, ?_, ?_, ?_, ?_, ?_, ?_, ?_⟩ <;> intros
  · rw [tracer_point_variable, if_neg (by omega)]
  · rw [u_point_variable, if_neg (by omega)]
  · rw [v_point_variable, if_neg (by omega)]
  · rw [time_series_variable.eq_def]
    simp only []
    rw [if_neg (by omega)]
  · rw [f_plane_f_u, if_neg (by omega)]
  · rw [f_plane_f_v, if_neg (by omega)]
  · rw [beta_plane_f_u, if_neg (by omega)]
  · rw [beta_plane_f_v, if_neg (by omega)]
  · rw [rectangular_pool, if_neg (by omega)]

/-- Witness for `generators_reject_wrong_count`: each registered generator at
a concrete mismatched count (an empty per-layer list against 2 expected
layers, or `field_layers = 2` against the fixed single layer). -/
theorem generators_reject_wrong_count_witness :
    tracer_point_variable testGrid 2 [] = none ∧
    u_point_variable testGrid 2 [] = none ∧
    v_point_variable testGrid 2 [] = none ∧
    time_series_variable 5 1 (.seq []) = none ∧
    f_plane_f_u testGrid 2 1 = none ∧
    f_plane_f_v testGrid 2 1 = none ∧
    beta_plane_f_u testGrid 2 1 1 = none ∧
    beta_plane_f_v testGrid 2 1 1 = none ∧
    rectangular_pool testGrid 2 = none :=
  ⟨generators_reject_wrong_count.1 testGrid 2 [] (by decide),
   generators_reject_wrong_count.2.1 testGrid 2 [] (by decide),
   generators_reject_wrong_count.2.2.1 testGrid 2 [] (by decide),
   generators_reject_wrong_count.2.2.2.1 5 1 [] (by decide),
   generators_reject_wrong_count.2.2.2.2.1 testGrid 2 1 (by decide),
   generators_reject_wrong_count.2.2.2.2.2.1 testGrid 2 1 (by decide),
   generators_reject_wrong_count.2.2.2.2.2.2.1 testGrid 2 1 1 (by decide),
   generators_reject_wrong_count.2.2.2.2.2.2.2.1 testGrid 2 1 1 (by decide),
   generators_reject_wrong_count.2.2.2.2.2.2.2.2 testGrid 2 (by decide)⟩

/-- C9: `f_plane_f_u(grid, 1, coeff)` succeeds and returns a 2-D array of
shape `(nx+1, ny)` every element of which equals `coeff`; with
`coeff = 1.0e-4` the field is uniformly `1.0e-4`. -/
theorem f_plane_f_u_uniform (g : Grid) (coeff : ℚ) :
    ∃ m, f_plane_f_u g 1 coeff = some m ∧ m.length = g.nx + 1 ∧
      ∀ row ∈ m, row.length = g.ny ∧ ∀ q ∈ row, q = coeff := by
  refine ⟨_, rfl, by simp, ?_⟩
  intro row hrow
  rw [List.eq_of_mem_replicate hrow]
  refine ⟨by simp, ?_⟩
  intro q hq
  rw [List.eq_of_mem_replicate hq, one_mul]

/-- Witness for `f_plane_f_u_uniform` at `testGrid` with the claim's
coefficient `1.0e-4 = 1/10000`. -/
theorem f_plane_f_u_uniform_witness :
    ∃ m, f_plane_f_u testGrid 1 (1 / 10000) = some m ∧
      m.length = testGrid.nx + 1 ∧
      ∀ row ∈ m, row.length = testGrid.ny ∧ ∀ q ∈ row, q = 1 / 10000 :=
  f_plane_f_u_uniform testGrid (1 / 10000)

/-- C10: `time_series_variable` accepts its value argument only as a sequence
of length exactly 1: a bare numeric constant or a bare callable dies at
`len(func)` (`TypeError`), a sequence of any other length fails the
`assert len(func) == 1`; a length-1 sequence yields a 1-D array of length
`nTimeSteps` — uniform for a constant element, and equal to
`f(nTimeSteps, dt)` for a callable element.  (Hence a caller going through
`interpret_requested_data` with the `"time"` shape tag must wrap the single
value in a one-element sequence.) -/
theorem time_series_variable_spec :
    (∀ (n : ℕ) (dt q : ℚ), time_series_variable n dt (.num q) = none) ∧
    (∀ (n : ℕ) (dt : ℚ) (f : ℕ → ℚ → List ℚ),
      time_series_variable n dt (.fn f) = none) ∧
    (∀ (n : ℕ) (dt : ℚ) (l : List TSVal), l.length ≠ 1 →
      time_series_variable n dt (.seq l) = none) ∧
    (∀ (n : ℕ) (dt q : ℚ),
      time_series_variable n dt (.seq [.const q]) =
        some (List.replicate n q) ∧
      (List.replicate n q).length = n) ∧
    (∀ (n : ℕ) (dt : ℚ) (f : ℕ → ℚ → List ℚ), (f n dt).length = n →
      time_series_variable n dt (.seq [.fn f]) = some (f n dt)) := by
  refine ⟨fun n dt q => rfl, fun n dt f => rfl, ?_, ?_, ?_⟩
  · intro n dt l h
    rw [time_series_variable.eq_def]
    simp only []
    rw [if_neg (by omega)]
  · intro n dt q
    constructor
    · simp [time_series_variable, one_mul]
    · simp
  · intro n dt f h
    simp [time_series_variable, h]

/-- Witness for `time_series_variable_spec` at concrete inputs: the constant
5 wrapped in a singleton yields five copies; the bare constant, the bare
callable, and the empty sequence are rejected; a concrete callable returning
`[dt, dt, dt]` is returned as-is. -/
theorem time_series_variable_spec_witness :
    time_series_variable 3 2 (.num 5) = none ∧
    time_series_variable 3 2 (.fn (fun n dt => List.replicate n dt)) = none ∧
    time_series_variable 3 2 (.seq []) = none ∧
    time_series_variable 3 2 (.seq [.const 5]) = some (List.replicate 3 5) ∧
    time_series_variable 3 2 (.seq [.fn (fun n dt => List.replicate n dt)]) =
      some (List.replicate 3 2) :=
  ⟨time_series_variable_spec.1 3 2 5,
   time_series_variable_spec.2.1 3 2 _,
   time_series_variable_spec.2.2.1 3 2 [] (by decide),
   (time_series_variable_spec.2.2.2.1 3 2 5).1,
   time_series_variable_spec.2.2.2.2 3 2 (fun n dt => List.replicate n dt)
     (by simp)⟩

/-- C8: `rectangular_pool(grid, 1)` succeeds for `nx, ny ≥ 1` and returns an
array of shape `(nx, ny)` whose entire first and last rows and first and last
columns are 0 and whose every interior element is 1 (so in particular for
`nx = 5`, `ny = 4` the mask has shape `(5, 4)` with a one-cell border of
zeros and ones inside). -/
theorem set2_replicate_getElem {α : Type _} (nx i : ℕ) (a z : α) (hi : i < nx) :
    (((List.replicate nx a).set 0 z).set (nx - 1) z)[i]? =
      some (if i = 0 ∨ i = nx - 1 then z else a) := by
  rw [List.getElem?_set, List.getElem?_set, List.getElem?_replicate]
  by_cases h1 : nx - 1 = i
  · rw [if_pos h1,
      if_pos (show nx - 1 < ((List.replicate nx a).set 0 z).length by
        rw [List.length_set, List.length_replicate]; omega),
      if_pos (show i = 0 ∨ i = nx - 1 from Or.inr h1.symm)]
  · rw [if_neg h1]
    by_cases h0 : (0 : ℕ) = i
    · rw [if_pos h0,
        if_pos (show (0 : ℕ) < (List.replicate nx a).length by
          rw [List.length_replicate]; omega),
        if_pos (show i = 0 ∨ i = nx - 1 from Or.inl h0.symm)]
    · rw [if_neg h0, if_pos hi, if_neg (by omega)]

theorem row_border_getD (ny j : ℕ) (v : ℚ) (hj : j < ny) :
    ((((List.replicate ny v).set 0 0).set (ny - 1) 0).getD j 0) =
      if j = 0 ∨ j = ny - 1 then 0 else v := by
  have h := set2_replicate_getElem ny j v (0 : ℚ) hj
  rw [List.getD_eq_getElem?_getD, h]
  rfl

theorem rectangular_pool_spec (g : Grid) (hnx : 1 ≤ g.nx) (hny : 1 ≤ g.ny) :
    ∃ m, rectangular_pool g 1 = some m ∧ m.length = g.nx ∧
      (∀ row ∈ m, row.length = g.ny) ∧
      ∀ i j, i < g.nx → j < g.ny →
        (m.getD i []).getD j 0 =
          if i = 0 ∨ i = g.nx - 1 ∨ j = 0 ∨ j = g.ny - 1 then 0 else 1 := by
  refine ⟨_, rfl, ?_, ?_, ?_⟩
  · simp
  · intro row hrow
    obtain ⟨r3, hr3, hrow⟩ := List.mem_map.mp hrow
    obtain ⟨r2, hr2, hr3⟩ := List.mem_map.mp hr3
    subst hrow
    subst hr3
    rcases List.mem_or_eq_of_mem_set hr2 with h | h
    · rcases List.mem_or_eq_of_mem_set h with h2 | h2
      · rw [List.eq_of_mem_replicate h2]; simp
      · subst h2; simp
    · subst h; simp
  · intro i j hi hj
    have hmi :
        (((((List.replicate g.nx (List.replicate g.ny (1 : ℚ))).set 0
            (List.replicate g.ny 0)).set (g.nx - 1) (List.replicate g.ny 0)).map
              (fun row => row.set 0 0)).map
              (fun row => row.set (g.ny - 1) 0)).getD i [] =
          (((if i = 0 ∨ i = g.nx - 1 then List.replicate g.ny (0 : ℚ)
            else List.replicate g.ny 1).set 0 0).set (g.ny - 1) 0) := by
      rw [List.getD_eq_getElem?_getD, List.getElem?_map, List.getElem?_map,
        set2_replicate_getElem g.nx i (List.replicate g.ny (1 : ℚ))
          (List.replicate g.ny (0 : ℚ)) hi]
      rfl
    show ((((((List.replicate g.nx (List.replicate g.ny (1 : ℚ))).set 0
        (List.replicate g.ny 0)).set (g.nx - 1) (List.replicate g.ny 0)).map
          (fun row => row.set 0 0)).map
          (fun row => row.set (g.ny - 1) 0)).getD i []).getD j 0 = _
    rw [hmi]
    by_cases hib : i = 0 ∨ i = g.nx - 1
    · rw [if_pos hib, row_border_getD g.ny j 0 hj,
        if_pos (show i = 0 ∨ i = g.nx - 1 ∨ j = 0 ∨ j = g.ny - 1 from
          hib.elim Or.inl (fun h => Or.inr (Or.inl h)))]
      split_ifs <;> rfl
    · rw [if_neg hib, row_border_getD g.ny j 1 hj]
      push_neg at hib
      by_cases hjb : j = 0 ∨ j = g.ny - 1
      · rw [if_pos hjb,
          if_pos (show i = 0 ∨ i = g.nx - 1 ∨ j = 0 ∨ j = g.ny - 1 from
            hjb.elim (fun h => Or.inr (Or.inr (Or.inl h)))
              (fun h => Or.inr (Or.inr (Or.inr h))))]
      · rw [if_neg hjb, if_neg (by push_neg at hjb; simp [hib.1, hib.2, hjb.1, hjb.2])]

/-- Witness for `rectangular_pool_spec` at the concrete grid of the claim
(`nx = 5`, `ny = 4`, via `mkGrid 5 4 1 1 1 0 0`). -/
theorem rectangular_pool_spec_witness :
    ∃ m, rectangular_pool (mkGrid 5 4 1 1 1 0 0) 1 = some m ∧
      m.length = (mkGrid 5 4 1 1 1 0 0).nx ∧
      (∀ row ∈ m, row.length = (mkGrid 5 4 1 1 1 0 0).ny) ∧
      ∀ i j, i < (mkGrid 5 4 1 1 1 0 0).nx → j < (mkGrid 5 4 1 1 1 0 0).ny →
        (m.getD i []).getD j 0 =
          if i = 0 ∨ i = (mkGrid 5 4 1 1 1 0 0).nx - 1 ∨ j = 0 ∨
              j = (mkGrid 5 4 1 1 1 0 0).ny - 1 then 0 else 1 :=
  rectangular_pool_spec (mkGrid 5 4 1 1 1 0 0) (by decide) (by decide)

/-- Numeric value of a decimal digit character, `none` for a non-digit. -/
def digitVal (c : Char) : Option ℕ :=
  if '0' ≤ c ∧ c ≤ '9' then some (c.toNat - '0'.toNat) else none

/-- Parse a nonempty all-digit string as a natural number;
`none` if the string is empty or contains a non-digit. -/
def parseNatDigits (s : List Char) : Option ℕ :=
  if s.isEmpty then none
  else s.foldlM (fun acc c => (digitVal c).map (fun d => acc * 10 + d)) 0

/-- Strip an optional leading sign, returning the sign as `±1`. -/
def parseSign : List Char → ℤ × List Char
  | '-' :: r => (-1, r)
  | '+' :: r => (1, r)
  | s => (1, s)

/-- Parse an unsigned decimal mantissa: digits with an optional decimal point
(`"1"`, `"1."`, `".5"`, `"0.0001"`); at least one digit must be present. -/
def parseMantissa (s : List Char) : Option ℚ :=
  let ip := s.takeWhile (fun c => c ≠ '.')
  let rest := s.dropWhile (fun c => c ≠ '.')
  match rest with
  | [] => (parseNatDigits ip).map (fun n => (n : ℚ))
  | _ :: frac =>
    if ip.isEmpty ∧ frac.isEmpty then none
    else
      match (if ip.isEmpty then some 0 else parseNatDigits ip),
            (if frac.isEmpty then some 0 else parseNatDigits frac) with
      | some ipv, some fv =>
        some ((ipv : ℚ) + (fv : ℚ) / (10 : ℚ) ^ frac.length)
      | _, _ => none

/-- Model of the Python builtin `float(str)` as used by
`interpret_data_specifier`: optional sign, decimal mantissa, optional
exponent part; a string outside this grammar raises `ValueError` (`none`).
(Whitespace tolerance and the `inf`/`nan` spellings accepted by Python are
not modelled; no claim exercises them.) -/
def parseFloat (s : List Char) : Option ℚ :=
  let (sgn, s1) := parseSign s
  let mant := s1.takeWhile (fun c => c ≠ 'e' ∧ c ≠ 'E')
  let rest := s1.dropWhile (fun c => c ≠ 'e' ∧ c ≠ 'E')
  match rest with
  | [] => (parseMantissa mant).map (fun m => (sgn : ℚ) * m)
  | _ :: ex =>
    match parseMantissa mant with
    | none => none
    | some m =>
      let (esgn, ed) := parseSign ex
      match parseNatDigits ed with
      | none => none
      | some ev => some ((sgn : ℚ) * m * (10 : ℚ) ^ (esgn * (ev : ℤ)))

/-- Split a string at the last `:` it contains: `splitLastColon s = some (a,
b)` with `s = a ++ ':' :: b` and `b` colon-free; `none` when `s` has no
colon.  This is how the greedy first group of the anchored Python regex
`:(.*):(.*)` divides the text after the leading colon. -/
def splitLastColon : List Char → Option (List Char × List Char)
  | [] => none
  | c :: cs =>
    match splitLastColon cs with
    | some (a, b) => some (c :: a, b)
    | none => if c = ':' then some ([], cs) else none

/-- Model of Python `str.split(',')` on a nonempty pattern: the comma-separated
tokens, including empty ones (always at least one token). -/
def splitComma : List Char → List (List Char)
  | [] => [[]]
  | c :: cs =>
    match splitComma cs with
    | [] => [[]]
    | t :: ts => if c = ',' then [] :: t :: ts else (c :: t) :: ts

/-- Names of the registered generators, the values of the `ok_generators`
dict of `aronnax/core.py`. -/
inductive GenName where
  | tracer_point_variable
  | u_point_variable
  | v_point_variable
  | time_series_variable
  | beta_plane_f_u
  | beta_plane_f_v
  | f_plane_f_u
  | f_plane_f_v
  | rectangular_pool
deriving Repr, DecidableEq

/-- The `ok_generators` registry, in source order. -/
def ok_generators : List (String × GenName) :=
  [("tracer_point_variable", .tracer_point_variable),
   ("u_point_variable", .u_point_variable),
   ("v_point_variable", .v_point_variable),
   ("time_series_variable", .time_series_variable),
   ("beta_plane_f_u", .beta_plane_f_u),
   ("beta_plane_f_v", .beta_plane_f_v),
   ("f_plane_f_u", .f_plane_f_u),
   ("f_plane_f_v", .f_plane_f_v),
   ("rectangular_pool", .rectangular_pool)]

/-- Outcome of `interpret_data_specifier`: `noMatch` is the Python `return
None` when the regex does not match; `valueError` is the `ValueError` raised
by `float(a)` on a malformed token; `keyError` is the `KeyError` raised by
`ok_generators[name]` for an unregistered name; `found` is the normal
`(generator, args)` return.  Note the source parses the argument list before
looking the name up, so a malformed argument list wins over an unknown
name. -/
inductive SpecResult where
  | noMatch
  | valueError
  | keyError
  | found (g : GenName) (args : List ℚ)
deriving DecidableEq

/-- Left-to-right parsing of the comma-split tokens (the list comprehension
`[float(a) for a in arg_str.split(',')]`): `none` as soon as a token is not a
float literal. -/
def parseArgs : List (List Char) → Option (List ℚ)
  | [] => some []
  | t :: ts =>
    match parseFloat t with
    | none => none
    | some q => (parseArgs ts).map (fun l => q :: l)

/-- Embedding of `interpret_data_specifier(string)` (`aronnax/core.py` lines
240–251).  `re.match(r":(.*):(.*)", string)` requires a leading `:` and a
second `:`; both groups are greedy, so group 1 extends to the last colon.  On
a match, a nonempty second group is comma-split and parsed as floats
(`ValueError` on a bad token), then the name is looked up in `ok_generators`
(`KeyError` when absent); on no match the function returns `None`
(`noMatch`).  (The Python `.` does not match a newline; inputs containing
newlines are not modelled, and no claim uses one.) -/
def interpret_data_specifier (s : List Char) : SpecResult :=
  match s with
  | ':' :: rest =>
    match splitLastColon rest with
    | none => .noMatch
    | some (name, argstr) =>
      match (if argstr.isEmpty then some [] else parseArgs (splitComma argstr)) with
      | none => .valueError
      | some args =>
        match ok_generators.lookup (String.mk name) with
        | none => .keyError
        | some g => .found g args
  | _ => .noMatch

theorem parseArgs_none_of_mem (ts : List (List Char)) (t : List Char)
    (ht : t ∈ ts) (hf : parseFloat t = none) : parseArgs ts = none := by
  induction ts with
  | nil => simp at ht
  | cons hd tl ih =>
    rcases List.mem_cons.mp ht with h | h
    · subst h
      simp only [parseArgs, hf]
    · simp only [parseArgs]
      cases hph : parseFloat hd
      · rfl
      · rw [ih h]
        rfl

/-- C7: `":rectangular_pool:"` resolves to the `rectangular_pool` generator
with an empty argument list; `":f_plane_f_u:0.0001"` resolves to
`f_plane_f_u` with argument list `[0.0001]`; the unregistered name in
`":bogus:1"` fails with `KeyError` (the spec's UnknownGenerator); and any
matching specifier whose argument list contains a non-numeric token fails at
`float(...)` with `ValueError` (the spec's ParseError) — the last part stated
for every text of the form `':' :: rest` whose last-colon split yields a
nonempty argument part containing an unparsable token. -/
theorem interpret_data_specifier_spec :
    interpret_data_specifier (":rectangular_pool:".toList) =
      .found .rectangular_pool [] ∧
    interpret_data_specifier (":f_plane_f_u:0.0001".toList) =
      .found .f_plane_f_u [1 / 10000] ∧
    interpret_data_specifier (":bogus:1".toList) = .keyError ∧
    (∀ (rest name argstr t : List Char),
      splitLastColon rest = some (name, argstr) → argstr.isEmpty = false →
      t ∈ splitComma argstr → parseFloat t = none →
      interpret_data_specifier (':' :: rest) = .valueError) := by
  refine ⟨rfl, ?_, rfl, ?_⟩
  · have h : ∃ q, interpret_data_specifier (":f_plane_f_u:0.0001".toList) =
        .found .f_plane_f_u [q] ∧ q = 1 / 10000 := by
      refine ⟨_, rfl, ?_⟩
      norm_num [List.takeWhile, show ('1'.toNat - '0'.toNat) = 1 from rfl,
        show (decide ('0' = 'e')) = false from rfl,
        show (decide ('0' = 'E')) = false from rfl,
        show (decide ('1' = 'e')) = false from rfl,
        show (decide ('1' = 'E')) = false from rfl]
    obtain ⟨q, hq, hv⟩ := h
    rw [hq, hv]
  · intro rest name argstr t hsplit hne hmem hbad
    have hargs : parseArgs (splitComma argstr) = none :=
      parseArgs_none_of_mem _ t hmem hbad
    simp [interpret_data_specifier, hsplit, hne, hargs]

/-- Witness for the universally quantified part of
`interpret_data_specifier_spec`: the specifier `":f_plane_f_u:12,zz"` has the
non-numeric token `zz` in its argument list and fails with `ValueError`. -/
theorem interpret_data_specifier_spec_witness :
    interpret_data_specifier (":f_plane_f_u:12,zz".toList) = .valueError :=
  interpret_data_specifier_spec.2.2.2 ("f_plane_f_u:12,zz".toList)
    ("f_plane_f_u".toList) ("12,zz".toList) ("zz".toList) rfl rfl
    (by decide) rfl

end Aronnax
